import Mathlib

/-!
Verification development for the `ielts-writing-v2` Telegram-bot repository.

Shallow embedding of the parts of the code base the claims concern:
user quota accounting (`src/shared/models/user.py`), lazy monthly reset
(`src/shared/utils.py`), channel-membership bonus
(`src/shared/models/user_channel_membership.py`), submission scoring
(`src/shared/models/submission.py`), the enumerated submission status
(`src/shared/constants.py`, `src/shared/migrations.py`), the enhanced
word-count validator (`src/bot/handlers/word_count_validator.py`), the
submission-text validator (`src/bot/handlers/text_validators.py`), and
the AI-response parsing in `src/bot/ai/openai_client.py`.

Modelling conventions:
* Python `int` is `ℤ`, Python `float` is `ℚ` (all arithmetic the claims
  exercise is exact decimal arithmetic far from binary-rounding
  boundaries; comparisons of derived ratios against decimal literals are
  expressed by the equivalent integer cross-multiplication so that they
  stay kernel-computable).
* Python `str` is `String` / `List Char`; the regular expressions the
  code uses are embedded as the concrete character-list functions they
  denote. Python `\w` (Unicode word character) is modelled as ASCII
  alphanumerics, underscore, and every code point above 127 — accurate
  for every character class that actually occurs in the repository's
  inputs (Latin and Persian letters are word characters, ASCII
  punctuation and whitespace are not).
* Fallible Python code (`raise` / `try` ... `except`) is `Except` /
  `Option`; mutation of a model instance is explicit state passing.
-/

set_option maxRecDepth 20000
set_option maxHeartbeats 4000000

namespace IeltsWriting

/-! ## Python string primitives -/

/-- Python whitespace (`str.strip` / `str.split` / regex `\s`),
restricted to the ASCII whitespace characters. -/
def pyIsSpace (c : Char) : Bool :=
  c == ' ' || c == Char.ofNat 9 || c == Char.ofNat 10 || c == Char.ofNat 11 ||
    c == Char.ofNat 12 || c == Char.ofNat 13

/-- The apostrophe character (U+0027). -/
def apos : Char := Char.ofNat 39

/-- The apostrophe as a one-character string. -/
def aposStr : String := String.mk [apos]

def isAsciiUpper (c : Char) : Bool := decide (65 ≤ c.toNat) && decide (c.toNat ≤ 90)

def isAsciiLower (c : Char) : Bool := decide (97 ≤ c.toNat) && decide (c.toNat ≤ 122)

def isAsciiLetter (c : Char) : Bool := isAsciiUpper c || isAsciiLower c

def isAsciiDigit (c : Char) : Bool := decide (48 ≤ c.toNat) && decide (c.toNat ≤ 57)

/-- Python regex `\w`: ASCII alphanumerics, underscore, and (as an
approximation of the full Unicode table that is exact on the
repository's Latin/Persian inputs) every code point above 127. -/
def isWordChar (c : Char) : Bool :=
  isAsciiLetter c || isAsciiDigit c || c == Char.ofNat 95 || decide (127 < c.toNat)

/-- The Arabic/Persian block `؀`-`ۿ` used by
`check_text_language`. -/
def isPersianArabicChar (c : Char) : Bool :=
  decide (1536 ≤ c.toNat) && decide (c.toNat ≤ 1791)

/-- Model of `str.strip()` on a character list. -/
def pyStrip (l : List Char) : List Char :=
  ((l.dropWhile pyIsSpace).reverse.dropWhile pyIsSpace).reverse

/-- Model of `str.lower()` (ASCII case folding; the non-ASCII characters the code
meets, Persian letters, are unaffected by lowering). -/
def pyLower (l : List Char) : List Char := l.map Char.toLower

/-- Maximal runs of characters satisfying `p` (accumulator-based so the
recursion is structural). -/
def runsAux (p : Char → Bool) : List Char → List Char → List (List Char)
  | [], acc => if acc.isEmpty then [] else [acc.reverse]
  | c :: cs, acc =>
    if p c then runsAux p cs (c :: acc)
    else if acc.isEmpty then runsAux p cs []
    else acc.reverse :: runsAux p cs []

/-- All maximal runs of characters satisfying `p` in `l`, in order. -/
def charRuns (p : Char → Bool) (l : List Char) : List (List Char) := runsAux p l []

/-- Python `str.split()` (split on whitespace runs, no empty tokens). -/
def pySplitWs (l : List Char) : List (List Char) := charRuns (fun c => !pyIsSpace c) l

/-- Model of `re.split(pattern-of-one-character-class +, text)`: the segments
between maximal separator runs, keeping empty segments at the borders,
exactly as Python's `re.split` does. `inSep` records whether the
previous character belonged to a separator run. -/
def reSplitAux (p : Char → Bool) : List Char → List Char → Bool → List (List Char)
  | [], acc, _ => [acc.reverse]
  | c :: cs, acc, inSep =>
    if p c then
      if inSep then reSplitAux p cs acc true
      else acc.reverse :: reSplitAux p cs [] true
    else reSplitAux p cs (c :: acc) false

def reSplit (p : Char → Bool) (l : List Char) : List (List Char) := reSplitAux p l [] false

/-- Model of `re.sub(r'\s+', ' ', ·)` after a strip: collapse every whitespace
run to a single blank. -/
def squeezeWsAux : Bool → List Char → List Char
  | _, [] => []
  | prevSp, c :: cs =>
    if pyIsSpace c then
      if prevSp then squeezeWsAux true cs else ' ' :: squeezeWsAux true cs
    else c :: squeezeWsAux false cs

/-- The normalisation `re.sub(r'\s+', ' ', text.strip())` used by
`count_words_advanced`. -/
def normalizeWs (l : List Char) : List Char := squeezeWsAux false (pyStrip l)

def containsSubstrAux (pat : List Char) : List Char → Bool
  | [] => pat.isEmpty
  | c :: cs => ((c :: cs).take pat.length == pat) || containsSubstrAux pat cs

/-- Plain (unanchored, boundary-free) substring occurrence, used to
state claims about "contains the literal substring": `pat` occurs at
some suffix of `l` (or `pat` is empty). -/
def containsSubstr (l pat : List Char) : Bool := pat.isEmpty || containsSubstrAux pat l

/-! ## Exact "float" helpers

Python's `round` is round-half-to-even. The repository only ever
rounds values that are exact decimals well away from binary floating
point rounding boundaries, so the exact rational model below agrees
with the float computation everywhere the claims look. -/

/-- Python `round(x)`: nearest integer, ties to even. -/
def pythonRound (x : ℚ) : ℤ :=
  if x - ⌊x⌋ < 1/2 then ⌊x⌋
  else if 1/2 < x - ⌊x⌋ then ⌊x⌋ + 1
  else if ⌊x⌋ % 2 = 0 then ⌊x⌋ else ⌊x⌋ + 1

/-- Python `round(x, 1)`: nearest tenth, ties to even tenth. -/
def roundTo1 (x : ℚ) : ℚ := (pythonRound (x * 10) : ℚ) / 10

/-! ## Configuration (`src/shared/config.py`)

The limits are read from the environment with the defaults below
(`FREE_MONTHLY_LIMIT=10`, `PREMIUM_MONTHLY_LIMIT=100`,
`CHANNEL_BONUS_REQUESTS=5`, `MAX_BONUS_REQUESTS=20`); the model keeps
them as an explicit record so every theorem is quantified over the
configured values, with `defaultConfig` the shipped defaults. -/

structure BotConfig where
  FREE_MONTHLY_LIMIT : ℤ
  PREMIUM_MONTHLY_LIMIT : ℤ
  CHANNEL_BONUS_REQUESTS : ℤ
  MAX_BONUS_REQUESTS : ℤ
deriving DecidableEq

def defaultConfig : BotConfig := ⟨10, 100, 5, 20⟩

/-! ## Dates and the lazy monthly reset (`src/shared/utils.py`) -/

/-- A calendar date (the `datetime.date` / `datetime.datetime` fields
that `should_reset_monthly_usage` reads). -/
structure PyDate where
  year : ℤ
  month : ℤ
  day : ℤ
deriving DecidableEq

/-- Model of `should_reset_monthly_usage(last_reset_date)` from
`src/shared/utils.py`: reset when no date is stored, or when the stored
date's (year, month) differs from today's. `today` stands for
`datetime.now()`. -/
def should_reset_monthly_usage (today : PyDate) (last_reset_date : Option PyDate) : Bool :=
  match last_reset_date with
  | none => true
  | some d => decide ((today.year, today.month) ≠ (d.year, d.month))

/-! ## Users (`src/shared/models/user.py`) -/

inductive SubscriptionType where
  | free
  | premium
deriving DecidableEq

structure User where
  subscription_type : SubscriptionType
  is_active : Bool
  monthly_submissions : ℤ
  total_submissions : ℤ
  bonus_requests : ℤ
  last_submission_reset : Option PyDate
deriving DecidableEq

/-- Model of `User.is_premium`. -/
def User.is_premium (u : User) : Bool := decide (u.subscription_type = .premium)

/-- Model of `User.monthly_limit`: the tier-dependent configured constant. -/
def User.monthly_limit (cfg : BotConfig) (u : User) : ℤ :=
  if u.is_premium then cfg.PREMIUM_MONTHLY_LIMIT else cfg.FREE_MONTHLY_LIMIT

/-- Model of `User.available_submissions`: `max(0, monthly_limit + bonus_requests
- monthly_submissions)`. -/
def User.available_submissions (cfg : BotConfig) (u : User) : ℤ :=
  max 0 (u.monthly_limit cfg + u.bonus_requests - u.monthly_submissions)

/-- Model of `User.can_submit()`: available submissions strictly positive. -/
def User.can_submit (cfg : BotConfig) (u : User) : Bool :=
  decide (0 < u.available_submissions cfg)

/-- Model of `User.reset_monthly_usage_if_needed()`: zero the monthly counter and
stamp the reset date with today when the lazy check fires; returns the
updated user together with the method's boolean result. -/
def User.reset_monthly_usage_if_needed (today : PyDate) (u : User) : User × Bool :=
  if should_reset_monthly_usage today u.last_submission_reset then
    ({ u with monthly_submissions := 0, last_submission_reset := some today }, true)
  else (u, false)

/-- Model of `User.add_bonus_requests(amount)`: clamp the new total at
`MAX_BONUS_REQUESTS` and return the updated user together with the
amount actually added (`new_total - old bonus_requests`). -/
def User.add_bonus_requests (cfg : BotConfig) (u : User) (amount : ℤ) : User × ℤ :=
  let new_total := min (u.bonus_requests + amount) cfg.MAX_BONUS_REQUESTS
  let added := new_total - u.bonus_requests
  ({ u with bonus_requests := new_total }, added)

/-! ## Channel membership (`src/shared/models/user_channel_membership.py`) -/

structure UserChannelMembership where
  is_member : Bool
  bonus_granted : Bool
  /-- Model of `last_check` timestamp; an abstract instant, written by every
  update (`datetime.utcnow()` is the `now` argument). -/
  last_check : ℤ
deriving DecidableEq

/-- Model of `UserChannelMembership.update_membership_status(is_member)`: record
the new status and the check time; grant the bonus (and say so) exactly
when a non-member becomes a member and the bonus was never granted. -/
def UserChannelMembership.update_membership_status (now : ℤ)
    (m : UserChannelMembership) (is_member : Bool) : UserChannelMembership × Bool :=
  let was_member := m.is_member
  let m1 : UserChannelMembership := { m with is_member := is_member, last_check := now }
  let should_grant_bonus := !was_member && is_member && !m.bonus_granted
  (if should_grant_bonus then { m1 with bonus_granted := true } else m1, should_grant_bonus)

/-- A sequence of membership checks: thread the record through
`update_membership_status` and collect each call's boolean result. -/
def run_membership_updates :
    UserChannelMembership → List (ℤ × Bool) → UserChannelMembership × List Bool
  | m, [] => (m, [])
  | m, (now, b) :: rest =>
    let step := m.update_membership_status now b
    let tail := run_membership_updates step.1 rest
    (tail.1, step.2 :: tail.2)

/-! ## Submission status (`src/shared/constants.py`,
`src/shared/migrations.py`) -/

/-- The Python `SubmissionStatus` enum, exactly as declared in
`src/shared/constants.py` (three members). -/
inductive SubmissionStatus where
  | pending
  | completed
  | failed
deriving DecidableEq

/-- The `.value` string of each `SubmissionStatus` member. -/
def SubmissionStatus.value : SubmissionStatus → String
  | .pending => "pending"
  | .completed => "completed"
  | .failed => "failed"

/-- The members of the Python enum, in declaration order. -/
def allSubmissionStatuses : List SubmissionStatus := [.pending, .completed, .failed]

/-- The status values the migration
`add_enhanced_submission_fields` writes into the database column
(`ALTER TABLE submissions MODIFY COLUMN status ENUM(...)` in
`src/shared/migrations.py`). -/
def migrationStatusEnumValues : List String :=
  ["pending", "processing", "completed", "failed", "cancelled"]

/-! ## Submissions and scoring (`src/shared/models/submission.py`) -/

/-- The score columns of a submission (each `DECIMAL(3,1)`, nullable).
The remaining columns (text, task type, status, feedback, ...) play no
role in the scoring claims and are omitted from the record. -/
structure Submission where
  task_achievement_score : Option ℚ
  coherence_cohesion_score : Option ℚ
  lexical_resource_score : Option ℚ
  grammatical_accuracy_score : Option ℚ
  overall_score : Option ℚ
deriving DecidableEq

/-- A submission with no scores set. -/
def blankSubmission : Submission := ⟨none, none, none, none, none⟩

/-- Model of `Submission.average_score`: coerce each missing component to `0`
(`float(score or 0)`), keep the strictly positive ones, and average
those (or return `0.0` when none are positive). -/
def Submission.average_score (s : Submission) : ℚ :=
  let scores : List ℚ :=
    [s.task_achievement_score.getD 0, s.coherence_cohesion_score.getD 0,
     s.lexical_resource_score.getD 0, s.grammatical_accuracy_score.getD 0]
  let valid_scores := scores.filter (fun x => decide (0 < x))
  if valid_scores.isEmpty then 0 else valid_scores.sum / valid_scores.length

/-- Model of `Submission.set_scores(...)`: store each component rounded to one
decimal, then store the overall score as `round(average * 2) / 2`
(average of the positive stored components, to the nearest 0.5). -/
def Submission.set_scores (s : Submission)
    (task_achievement coherence_cohesion lexical_resource grammatical_accuracy : ℚ) :
    Submission :=
  let s1 : Submission :=
    { s with
      task_achievement_score := some (roundTo1 task_achievement)
      coherence_cohesion_score := some (roundTo1 coherence_cohesion)
      lexical_resource_score := some (roundTo1 lexical_resource)
      grammatical_accuracy_score := some (roundTo1 grammatical_accuracy) }
  { s1 with overall_score := some ((pythonRound (s1.average_score * 2) : ℚ) / 2) }

/-! ## Enhanced word counting (`src/bot/handlers/word_count_validator.py`) -/

inductive WordCountMethod where
  | simple_split
  | regex_boundaries
  | advanced_parsing
deriving DecidableEq

/-- Model of `EnhancedWordCounter.count_words_simple`: `len([w for w in
text.split() if w.strip()])`. (The breakdown dictionary it also returns
is read by nothing downstream and is omitted.) -/
def count_words_simple (l : List Char) : ℕ :=
  ((pySplitWs l).filter (fun w => !(pyStrip w).isEmpty)).length

def isWordOrApos (c : Char) : Bool := isWordChar c || c == apos

/-- Trim the leading and trailing apostrophes of a word/apostrophe run;
what remains is exactly the text matched by `\b[\w']+\b` inside the
run. -/
def trimApos (r : List Char) : List Char :=
  (((r.dropWhile (fun c => !isWordChar c)).reverse).dropWhile (fun c => !isWordChar c)).reverse

/-- Model of `re.findall(r"\b[\w']+\b", text)`: each maximal run of word
characters and apostrophes that contains at least one word character
contributes one match, the segment from its first to its last word
character (checked against CPython's `re` on the boundary cases:
leading/trailing/doubled apostrophes, hyphens, digits). -/
def regexWordTokens (l : List Char) : List (List Char) :=
  (charRuns isWordOrApos l).filterMap fun r =>
    let t := trimApos r
    if t.isEmpty then none else some t

/-- Model of `EnhancedWordCounter.count_words_regex`: `len(re.findall(...))`.
(Its breakdown dictionary is likewise read by nothing downstream.) -/
def count_words_regex (l : List Char) : ℕ := (regexWordTokens l).length

/-- Join the two halves of a contraction key with an apostrophe. -/
def ctr (a b : String) : List Char := a.data ++ apos :: b.data

/-- The keys of `EnhancedWordCounter.__init__`'s contraction table,
verbatim (note the capital-I keys: the lookup lowercases the word first,
so those five keys can never be hit — faithful to the source). Every
expansion in the table has exactly two words, so a hit contributes 2 to
the count. -/
def contractionKeys : List (List Char) :=
  [ctr "don" "t", ctr "won" "t", ctr "can" "t", ctr "shouldn" "t", ctr "wouldn" "t",
   ctr "couldn" "t", ctr "isn" "t", ctr "aren" "t", ctr "wasn" "t", ctr "weren" "t",
   ctr "haven" "t", ctr "hasn" "t", ctr "hadn" "t",
   ctr "I" "m",
   ctr "you" "re", ctr "we" "re", ctr "they" "re",
   ctr "it" "s", ctr "that" "s", ctr "there" "s", ctr "here" "s", ctr "what" "s",
   ctr "who" "s",
   ctr "I" "ve", ctr "you" "ve", ctr "we" "ve", ctr "they" "ve",
   ctr "I" "ll", ctr "you" "ll", ctr "we" "ll", ctr "they" "ll",
   ctr "I" "d", ctr "you" "d", ctr "we" "d", ctr "they" "d"]

/-- Regex `^[A-Z]{2,}\.?$` (abbreviation branch). -/
def isAbbrevToken (w : List Char) : Bool :=
  let core := if w.getLast? == some '.' then w.dropLast else w
  decide (2 ≤ core.length) && core.all isAsciiUpper

/-- Regex `^\d+$` (number branch). -/
def isDigitsToken (w : List Char) : Bool := !w.isEmpty && w.all isAsciiDigit

inductive AdvCategory where
  | contraction
  | hyphenated
  | abbreviation
  | number
  | regular
deriving DecidableEq

/-- Classify one token the way `count_words_advanced`'s loop does, in
its branch order, returning the count contribution and the branch
taken. The hyphen branch splits on `-`, keeps the parts longer than one
character, and contributes their number. -/
def classifyAdv (w : List Char) : ℕ × AdvCategory :=
  let word_lower := pyLower w
  if contractionKeys.contains word_lower then (2, .contraction)
  else if w.contains '-' && decide (3 < w.length) then
    (((charRuns (fun c => c != '-') w).filter (fun p => decide (1 < p.length))).length,
      .hyphenated)
  else if isAbbrevToken w then (1, .abbreviation)
  else if isDigitsToken w then (1, .number)
  else if decide (1 ≤ w.length) then (1, .regular)
  else (0, .regular)

/-- The breakdown dictionary `count_words_advanced` builds. -/
structure AdvBreakdown where
  total_words : ℕ
  regular_words : ℕ
  contractions_expanded : ℕ
  hyphenated_words : ℕ
  abbreviations : ℕ
  numbers : ℕ
  original_tokens : ℕ
deriving DecidableEq

def advFold : List (List Char) → AdvBreakdown → AdvBreakdown
  | [], acc => acc
  | w :: ws, acc =>
    let step := classifyAdv w
    let acc1 : AdvBreakdown := { acc with total_words := acc.total_words + step.1 }
    let acc2 : AdvBreakdown :=
      match step.2 with
      | .contraction => { acc1 with contractions_expanded := acc1.contractions_expanded + 1 }
      | .hyphenated => { acc1 with hyphenated_words := acc1.hyphenated_words + 1 }
      | .abbreviation => { acc1 with abbreviations := acc1.abbreviations + 1 }
      | .number => { acc1 with numbers := acc1.numbers + 1 }
      | .regular => { acc1 with regular_words := acc1.regular_words + 1 }
    advFold ws acc2

/-- Model of `EnhancedWordCounter.count_words_advanced`: normalise whitespace,
tokenise with `\b[\w']+\b`, and tally each token through the
classification branches. Returns `(total_count, breakdown)`. -/
def count_words_advanced (l : List Char) : ℕ × AdvBreakdown :=
  let tokens := regexWordTokens (normalizeWs l)
  let b := advFold tokens ⟨0, 0, 0, 0, 0, 0, 0⟩
  (b.total_words, { b with original_tokens := tokens.length })

/-- Model of `WordCountResult` (the dataclass). `breakdown` is `none` in the
exception fallback (the empty dict). `confidence_score` is the exact
value of `max(0.5, 1.0 - variance / max(counts))`. -/
structure WordCountResult where
  total_words : ℕ
  method_used : WordCountMethod
  breakdown : Option AdvBreakdown
  warnings : List String
  suggestions : List String
  is_acceptable : Bool
  confidence_score : ℚ

/-- Model of `EnhancedWordCounter.validate_word_count`. When every counting
method returns 0, the confidence computation divides by zero; the
method's `except` clause then returns the fallback result with
`is_acceptable=False` — the `max_counts = 0` branch below. The
fractional comparisons guarding the two breakdown warnings
(`numbers > primary*0.1`, `contractions > primary*0.2`) are written as
the equivalent integer cross-multiplications. -/
def validate_word_count (text : List Char) (task_type : String)
    (min_words? max_words? : Option ℕ) : WordCountResult :=
  let min_words := min_words?.getD (if task_type = "task1" then 150 else 250)
  let max_words := max_words?.getD (if task_type = "task1" then 200 else 350)
  let simple_count := count_words_simple text
  let regex_count := count_words_regex text
  let adv := count_words_advanced text
  let advanced_count := adv.1
  let primary_count := advanced_count
  let max_counts := max simple_count (max regex_count advanced_count)
  let min_counts := min simple_count (min regex_count advanced_count)
  if max_counts = 0 then
    { total_words := 0, method_used := .simple_split, breakdown := none,
      warnings := ["خطا در شمارش کلمات"],
      suggestions := ["لطفاً متن را دوباره بررسی کنید"],
      is_acceptable := false, confidence_score := 0 }
  else
    let count_variance := max_counts - min_counts
    let confidence_score : ℚ := max (1/2) (1 - (count_variance : ℚ) / (max_counts : ℚ))
    let warnings1 : List String :=
      if 5 < count_variance then
        ["تعداد کلمات در روش‌های مختلف متفاوت است (" ++ toString min_counts ++ "-" ++
          toString max_counts ++ ")"]
      else []
    let is_acceptable := decide (min_words ≤ primary_count) && decide (primary_count ≤ max_words + 50)
    let suggestions1 : List String :=
      if primary_count < min_words then
        ["نیاز به " ++ toString (min_words - primary_count) ++
          " کلمه بیشتر برای رسیدن به حداقل مورد نیاز"]
      else if max_words + 50 < primary_count then
        ["متن " ++ toString (primary_count - max_words) ++ " کلمه بیش از حد توصیه شده است"]
      else []
    let suggestions2 : List String := suggestions1 ++
      (if task_type = "task1" ∧ 200 < primary_count then
        ["برای Task 1، بهتر است متن را خلاصه‌تر نگه دارید"]
      else if task_type = "task2" ∧ primary_count < 280 then
        ["برای Task 2، می‌توانید ایده‌های بیشتری اضافه کنید"]
      else [])
    let warnings2 : List String := warnings1 ++
      (if 10 * adv.2.numbers > primary_count then ["تعداد زیادی عدد در متن وجود دارد"] else []) ++
      (if 5 * adv.2.contractions_expanded > primary_count then
        ["استفاده زیاد از مخففات - در آیلتس بهتر است شکل کامل بنویسید"]
      else [])
    { total_words := primary_count, method_used := .advanced_parsing,
      breakdown := some adv.2, warnings := warnings2, suggestions := suggestions2,
      is_acceptable := is_acceptable, confidence_score := confidence_score }

/-! ## Submission-text validation (`src/bot/handlers/text_validators.py`) -/

/-- Model of `TaskRequirements` dataclass. -/
structure TaskRequirements where
  min_words : ℕ
  max_words : ℕ
  task_name : String
  description : String

/-- The `TASK_REQUIREMENTS` dictionary. -/
def TASK_REQUIREMENTS (task_type : String) : Option TaskRequirements :=
  if task_type = "task1" then
    some ⟨150, 200, "Task 1", "گراف، جدول، نمودار یا فرآیند"⟩
  else if task_type = "task2" then
    some ⟨250, 350, "Task 2", "مقاله نظری یا بحثی"⟩
  else none

/-- Characters the language check keeps: `[a-zA-Z؀-ۿ]`. -/
def isLangAlpha (c : Char) : Bool := isAsciiLetter c || isPersianArabicChar c

/-- The dictionary `check_text_language` returns. The two ratios are
kept exactly (`Option` because the empty-alphabet branch returns a
dictionary without them); `is_english` is decided by the integer form
of `english_ratio >= 0.7` / `persian_ratio >= 0.7`. -/
structure LanguageResult where
  is_english : Bool
  confidence : ℚ
  detected_language : String
  reason : Option String
  english_ratio : Option ℚ
  persian_ratio : Option ℚ

/-- Model of `check_text_language(text)`. -/
def check_text_language (l : List Char) : LanguageResult :=
  let alpha_chars := l.filter isLangAlpha
  if alpha_chars.isEmpty then
    { is_english := false, confidence := 0, detected_language := "unknown",
      reason := some "متن شامل حروف قابل تشخیص نیست", english_ratio := none,
      persian_ratio := none }
  else
    let english_chars := (alpha_chars.filter isAsciiLetter).length
    let persian_chars := (alpha_chars.filter isPersianArabicChar).length
    let total_chars := alpha_chars.length
    let english_ratio : ℚ := (english_chars : ℚ) / (total_chars : ℚ)
    let persian_ratio : ℚ := (persian_chars : ℚ) / (total_chars : ℚ)
    if 7 * total_chars ≤ 10 * english_chars then
      { is_english := true, confidence := english_ratio, detected_language := "english",
        reason := none, english_ratio := some english_ratio,
        persian_ratio := some persian_ratio }
    else if 7 * total_chars ≤ 10 * persian_chars then
      { is_english := false, confidence := persian_ratio, detected_language := "persian",
        reason := some "متن به زبان فارسی نوشته شده است",
        english_ratio := some english_ratio, persian_ratio := some persian_ratio }
    else
      { is_english := false, confidence := max english_ratio persian_ratio,
        detected_language := "mixed",
        reason := some "متن ترکیبی از زبان‌های مختلف است",
        english_ratio := some english_ratio, persian_ratio := some persian_ratio }

/-- The sentence separators of `re.split(r'[.!?]+', text)`. -/
def isSentencePunct (c : Char) : Bool := c == '.' || c == '!' || c == '?'

/-- First-occurrence-ordered word counting (a Python dict built by
`word_count[word] = word_count.get(word, 0) + 1`). -/
def bumpKey (k : List Char) : List (List Char × ℕ) → List (List Char × ℕ)
  | [] => [(k, 1)]
  | (k0, n) :: rest => if k0 == k then (k0, n + 1) :: rest else (k0, n) :: bumpKey k rest

def countOccAux : List (List Char) → List (List Char × ℕ) → List (List Char × ℕ)
  | [], acc => acc
  | w :: ws, acc => countOccAux ws (bumpKey w acc)

def countOccurrences (l : List (List Char)) : List (List Char × ℕ) := countOccAux l []

/-- The dictionary `check_text_quality` returns. -/
structure QualityResult where
  has_issues : Bool
  issues : List String
  warnings : List String
  sentence_count : ℕ
  average_sentence_length : ℚ

/-- Model of `check_text_quality(text)`. Thresholds computed with floats in the
source (`count > max(3, total_words * 0.1)`, `len(short) >
len(actual) * 0.5`) are written as the equivalent integer
comparisons. -/
def check_text_quality (l : List Char) : QualityResult :=
  let sentences := reSplit isSentencePunct l
  let actual_sentences := (sentences.map pyStrip).filter (fun s => !s.isEmpty)
  let issues1 : List String :=
    if actual_sentences.length < 3 then ["متن شامل کمتر از 3 جمله است"] else []
  let words := pySplitWs (pyLower l)
  let total_words := words.length
  let word_count := countOccurrences (words.filter (fun w => 3 < w.length))
  let warnings1 : List String := word_count.filterMap fun p =>
    if 10 * p.2 > max 30 total_words then
      some ("کلمه " ++ aposStr ++ String.mk p.1 ++ aposStr ++ " بیش از حد تکرار شده است")
    else none
  let short_sentences := actual_sentences.filter (fun s => (pySplitWs s).length < 5)
  let warnings2 : List String := warnings1 ++
    (if 2 * short_sentences.length > actual_sentences.length then
      ["بیش از نیمی از جملات بسیار کوتاه هستند"]
    else [])
  let issues2 : List String := issues1 ++
    (if l.any isAsciiUpper then [] else ["متن فاقد حروف بزرگ است"])
  { has_issues := decide (0 < issues2.length), issues := issues2, warnings := warnings2,
    sentence_count := actual_sentences.length,
    average_sentence_length :=
      if actual_sentences.isEmpty then 0
      else ((actual_sentences.map (fun s => (pySplitWs s).length)).sum : ℚ) /
        (actual_sentences.length : ℚ) }

/-- The word-boundary alternatives of the first placeholder pattern
`\b(lorem ipsum|test|testing|sample)\b`. -/
def placeholderWords1 : List (List Char) :=
  ["lorem ipsum".data, "test".data, "testing".data, "sample".data]

/-- The alternatives of `\b(asdf|qwerty|1234)\b`. -/
def placeholderWords2 : List (List Char) := ["asdf".data, "qwerty".data, "1234".data]

/-- One alternative matched at the head of the suffix `l`, with the
trailing `\b` checked against the character right after the match (a
non-word character or the end of the string). Every alternative starts
and ends with a word character, so `\b` on each side demands a
non-word neighbour or the string edge. -/
def prefixBoundedMatch (pat l : List Char) : Bool :=
  (l.take pat.length == pat) &&
    (match (l.drop pat.length).head? with
     | some c => !isWordChar c
     | none => true)

/-- Scan the suffixes of the text; `prevIsWord` tells whether the
character before the current suffix is a word character (initially
there is none), which decides the leading `\b`. -/
def searchBoundedAux (pats : List (List Char)) : Bool → List Char → Bool
  | _, [] => false
  | prevIsWord, c :: cs =>
    (!prevIsWord && pats.any (fun p => prefixBoundedMatch p (c :: cs))) ||
      searchBoundedAux pats (isWordChar c) cs

/-- Model of `re.search(r'\b(w1|w2|...)\b', l)` as a boolean. -/
def searchBounded (pats : List (List Char)) (l : List Char) : Bool :=
  searchBoundedAux pats false l

/-- Model of `re.search(r'^[A-Za-z\s]{1,20}$', l)`: some prefix of 1 to 20
letters/whitespace characters that reaches the end of the string
(or the position before one final newline, where `$` also matches). -/
def shortSimpleTextMatch (l : List Char) : Bool :=
  (List.range 21).any fun k =>
    decide (1 ≤ k) && (l.take k).all (fun c => isAsciiLetter c || pyIsSpace c) &&
      (decide (k = l.length) ||
        (decide (k + 1 = l.length) && (l.getLast? == some (Char.ofNat 10))))

/-- The placeholder scan of `validate_submission_text`: each pattern is
searched in `text.lower()`; the result is whether any matches. -/
def placeholderMatched (t : List Char) : Bool :=
  let lt := pyLower t
  searchBounded placeholderWords1 lt || searchBounded placeholderWords2 lt ||
    shortSimpleTextMatch lt

/-- The success dictionary of `validate_submission_text`, restricted to
its semantic fields. The presentation-only entries
(`detailed_word_count_summary`, `detailed_analysis_summary`,
`text_analysis`) are pure formatting of the fields below produced by
total functions — every code path of `format_word_count_result`,
`format_analysis_summary` and `TextAnalyzer.perform_complete_analysis`
is wrapped in `try`/`except` returning a default, so none of them can
raise and none affects whether validation succeeds. -/
structure ValidationSuccess where
  word_count : ℕ
  task_type : String
  task_name : String
  character_count : ℕ
  language_analysis : LanguageResult
  quality_analysis : QualityResult
  word_count_analysis : WordCountResult
  validation_message : String

/-- Model of `validate_submission_text(text, task_type)`: `Except.error msg`
models `raise TextValidationError(msg)` (the Persian explanation is the
carried message). Guard order is the source's: unknown task, empty or
whitespace-only text, stripped length under 50 / over 5000, enhanced
word count, language, quality, placeholder patterns. -/
def validate_submission_text (text : String) (task_type : String) :
    Except String ValidationSuccess :=
  match TASK_REQUIREMENTS task_type with
  | none => .error ("نوع تسک نامعتبر: " ++ task_type)
  | some requirements =>
    if (pyStrip text.data).isEmpty then .error "متن ارسالی خالی است"
    else
      let t := pyStrip text.data
      if t.length < 50 then .error "متن بسیار کوتاه است (حداقل 50 کاراکتر)"
      else if 5000 < t.length then .error "متن بسیار طولانی است (حداکثر 5000 کاراکتر)"
      else
        let word_count_result :=
          validate_word_count t task_type (some requirements.min_words)
            (some requirements.max_words)
        if !word_count_result.is_acceptable then
          .error ("تعداد کلمات نامناسب (" ++ toString word_count_result.total_words ++
            " کلمه)" ++
            (match word_count_result.suggestions.head? with
             | some s => ". " ++ s
             | none => ""))
        else
          let language_result := check_text_language t
          if !language_result.is_english then
            .error ("لطفاً متن را به زبان انگلیسی بنویسید. " ++
              language_result.reason.getD "متن به زبان انگلیسی نیست")
          else
            let quality_result := check_text_quality t
            if quality_result.has_issues then
              .error ("مشکل در متن: " ++ String.intercalate ", " quality_result.issues)
            else if placeholderMatched t then
              .error "متن ارسالی به نظر تستی یا نمونه است. لطفاً متن واقعی ارسال کنید"
            else
              .ok
                { word_count := word_count_result.total_words, task_type := task_type,
                  task_name := requirements.task_name, character_count := t.length,
                  language_analysis := language_result, quality_analysis := quality_result,
                  word_count_analysis := word_count_result,
                  validation_message := "متن معتبر - " ++
                    toString word_count_result.total_words ++ " کلمه برای " ++
                    requirements.task_name }

/-- Whether validation raised (`TextValidationError`). -/
def isValidationError (r : Except String ValidationSuccess) : Bool :=
  match r with
  | .error _ => true
  | .ok _ => false

/-! ## AI response parsing (`src/bot/ai/openai_client.py`) -/

/-- JSON values, as produced by `json.loads`. -/
inductive Json where
  | num (q : ℚ)
  | str (s : String)
  | bool (b : Bool)
  | null
  | arr (elems : List Json)
  | obj (fields : List (String × Json))

/-- Key lookup in a parsed JSON object. `json.loads` keeps the last
binding of a duplicated key, hence the reversed search. -/
def jsonLookup (k : String) (fields : List (String × Json)) : Option Json :=
  (fields.reverse.find? fun p => p.1 == k).map fun p => p.2

/-- Python's `float(v)` / participation of `v` in `sum(...)` for the
JSON values the score fields can carry: numbers are themselves,
booleans coerce to 0/1; anything else raises (`None` in the model —
the outer `except` turns it into a failure result). A decimal string
would also convert under `float`, but no score field produced by the
prompt's JSON contract is a string. -/
def pyNumeric : Json → Option ℚ
  | .num q => some q
  | .bool b => some (if b then 1 else 0)
  | _ => none

/-- Model of `AIEvaluationResult`, restricted to the fields the parser sets.
`feedback_text`/`strengths`/`weaknesses`/`improvement_suggestions`
keep the raw JSON values (`data.get(...)` with its default). -/
structure AIEvaluationResult where
  success : Bool
  task_achievement_score : Option ℚ
  coherence_cohesion_score : Option ℚ
  lexical_resource_score : Option ℚ
  grammatical_accuracy_score : Option ℚ
  overall_score : Option ℚ
  feedback_text : Option Json
  strengths : Option Json
  weaknesses : Option Json
  improvement_suggestions : Option Json
  error_message : Option String
  raw_response : Option String

/-- A failure `AIEvaluationResult` (`success=False`, everything else
unset but the error message and the raw response). -/
def failureResult (msg : String) (raw : Option String) : AIEvaluationResult :=
  ⟨false, none, none, none, none, none, none, none, none, none, some msg, raw⟩

/-- The `required_scores` list, in source order. -/
def requiredScoreKeys : List String :=
  ["task_achievement_score", "coherence_cohesion_score", "lexical_resource_score",
   "grammatical_accuracy_score"]

/-- The first required key missing from the object, scanning in source
order — the loop `for score_key in required_scores: if score_key not in
data: return ...`. -/
def firstMissingKey (fields : List (String × Json)) : List String → Option String
  | [] => none
  | k :: ks => if (jsonLookup k fields).isNone then some k else firstMissingKey fields ks

/-- Model of `str.strip()` on a `String`. -/
def pyStripString (s : String) : String := String.mk (pyStrip s.data)

/-- Model of `OpenAIClient._parse_evaluation_response`. `content?` is
`response.choices[0].message.content` (`none` when `choices` is empty
or the content is `None`; the empty string is the other falsy content).
`loads` stands for `json.loads` (the Python standard library, not
repository code): it returns the parsed value or the decoding error's
text. Non-object JSON documents make the score extraction raise
(`TypeError`), caught by the enclosing `except` as a failure result. -/
def parse_evaluation_response (content? : Option String)
    (loads : String → Except String Json) : AIEvaluationResult :=
  match content? with
  | none => failureResult "Empty response from OpenAI" none
  | some c0 =>
    if c0 = "" then failureResult "Empty response from OpenAI" none
    else
      let content := pyStripString c0
      match loads content with
      | .error e => failureResult ("Invalid JSON response: " ++ e) (some content)
      | .ok (.obj fields) =>
        (match firstMissingKey fields requiredScoreKeys with
        | some k => failureResult ("Missing required score: " ++ k) (some content)
        | none =>
          match pyNumeric ((jsonLookup "task_achievement_score" fields).getD .null),
              pyNumeric ((jsonLookup "coherence_cohesion_score" fields).getD .null),
              pyNumeric ((jsonLookup "lexical_resource_score" fields).getD .null),
              pyNumeric ((jsonLookup "grammatical_accuracy_score" fields).getD .null) with
          | some q1, some q2, some q3, some q4 =>
            (match
              (match jsonLookup "overall_score" fields with
               | some v => pyNumeric v
               | none => some (roundTo1 ((q1 + q2 + q3 + q4) / 4))) with
            | none =>
              failureResult "Response parsing error: unsupported score value" (some content)
            | some overall =>
              { success := true, task_achievement_score := some q1,
                coherence_cohesion_score := some q2, lexical_resource_score := some q3,
                grammatical_accuracy_score := some q4, overall_score := some overall,
                feedback_text := some ((jsonLookup "feedback_text" fields).getD (.str "")),
                strengths := some ((jsonLookup "strengths" fields).getD (.arr [])),
                weaknesses := some ((jsonLookup "weaknesses" fields).getD (.arr [])),
                improvement_suggestions :=
                  some ((jsonLookup "improvement_suggestions" fields).getD (.arr [])),
                error_message := none, raw_response := some content })
          | _, _, _, _ =>
            failureResult "Response parsing error: unsupported score value" (some content))
      | .ok _ =>
        failureResult "Response parsing error: unsupported JSON document type" (some content)

/-! ## Concrete texts used by the claims' witnesses -/

/-- Witness text of 249 one-letter words: its advanced word count is exactly 249. -/
def text249 : List Char := (String.intercalate " " (List.replicate 249 "a")).data

/-- Witness text of 250 one-letter words: its advanced word count is exactly 250. -/
def text250 : List Char := (String.intercalate " " (List.replicate 250 "a")).data

/-- One 50-word English sentence (single-letter words keep the kernel
evaluation of the witness cheap; the validator's checks only look at
sentence structure, capitalisation, character classes and counts). -/
def essaySentence : String :=
  "A a a a a a a a a a a a a a a a a a a a a a a a a a a a a a a a a a a a a a a a" ++
    " a a a a a a a a a a. "

/-- A 250-word, five-sentence English Task-2 text with no placeholder
markers. -/
def essayText : String := String.join (List.replicate 5 essaySentence)

/-- The same essay with one extra sentence whose middle contains the
literal characters `lorem ipsum` inside a longer word pair (no word
boundary around it), padded with trailing whitespace so the raw string
exceeds 5000 characters while its stripped form does not. -/
def loremPaddedInput : String :=
  essayText ++ "People often say blorem ipsumc daily. " ++
    String.mk (List.replicate 4500 ' ')

/-- A concrete AI response object used by the parser witness: the four
required score fields, all numeric, and no `overall_score`. -/
def sampleScoreFields : List (String × Json) :=
  [("task_achievement_score", .num 7), ("coherence_cohesion_score", .num (13/2)),
   ("lexical_resource_score", .num 8), ("grammatical_accuracy_score", .num (13/2))]

/-- A `json.loads` stand-in that parses everything to
`sampleScoreFields`. -/
def sampleLoads : String → Except String Json := fun _ => .ok (.obj sampleScoreFields)

/-! ## Helper lemmas -/

theorem pythonRound_intCast (n : ℤ) : pythonRound (n : ℚ) = n := by
  unfold pythonRound
  rw [Int.floor_intCast]
  norm_num

theorem abs_pythonRound_sub (x : ℚ) : |(pythonRound x : ℚ) - x| ≤ 1/2 := by
  have h0 : (⌊x⌋ : ℚ) ≤ x := Int.floor_le x
  have h1 : x < ⌊x⌋ + 1 := Int.lt_floor_add_one x
  unfold pythonRound
  split_ifs with hlt hgt hev
  · rw [abs_le]; constructor <;> linarith
  · push_cast; rw [abs_le]; constructor <;> linarith
  · rw [abs_le]; constructor <;> linarith
  · push_cast; rw [abs_le]; constructor <;> linarith

theorem roundTo1_tenth (n : ℤ) : roundTo1 ((n : ℚ) / 10) = (n : ℚ) / 10 := by
  unfold roundTo1
  rw [show (n : ℚ) / 10 * 10 = (n : ℚ) by field_simp, pythonRound_intCast]

/-! ## C1 — available submissions and eligibility -/

/-- C1: for every configuration and user, `available_submissions`
equals `max 0 (monthly_limit(tier) + bonus_requests -
monthly_submissions)` with `monthly_limit` the tier-dependent
configured constant, and `can_submit()` is true exactly when
`available_submissions` is strictly positive; a free-tier user under
the default configuration (free limit 10) with `monthly_submissions =
10` and `bonus_requests = 5` has `available_submissions = 5` and
`can_submit() = true`. -/
theorem c1_available_submissions_and_can_submit :
    (∀ (cfg : BotConfig) (u : User),
      u.available_submissions cfg =
        max 0 ((if u.subscription_type = .premium then cfg.PREMIUM_MONTHLY_LIMIT
          else cfg.FREE_MONTHLY_LIMIT) + u.bonus_requests - u.monthly_submissions) ∧
      (u.can_submit cfg = true ↔ 0 < u.available_submissions cfg)) ∧
    User.available_submissions defaultConfig
        ⟨.free, true, 10, 10, 5, none⟩ = 5 ∧
    User.can_submit defaultConfig ⟨.free, true, 10, 10, 5, none⟩ = true := by
  refine ⟨fun cfg u => ⟨?_, ?_⟩, by decide, by decide⟩
  · cases h : u.subscription_type <;>
      simp [User.available_submissions, User.monthly_limit, User.is_premium, h]
  · simp [User.can_submit]

/-! ## C3 — idempotence of the lazy monthly reset -/

/-- C3: when the stored reset date has today's (year, month) the check
changes nothing and returns false; when it differs it zeroes
`monthly_submissions`, stamps today, and returns true; and immediately
repeating the check is always a no-op returning false, so within one
month at most one reset happens. -/
theorem c3_monthly_reset_idempotent (today : PyDate) (u : User) :
    (∀ d : PyDate, u.last_submission_reset = some d →
      ((today.year, today.month) = (d.year, d.month) →
        u.reset_monthly_usage_if_needed today = (u, false)) ∧
      ((today.year, today.month) ≠ (d.year, d.month) →
        u.reset_monthly_usage_if_needed today =
          ({ u with monthly_submissions := 0, last_submission_reset := some today },
            true))) ∧
    (u.reset_monthly_usage_if_needed today).1.reset_monthly_usage_if_needed today =
      ((u.reset_monthly_usage_if_needed today).1, false) := by
  have hnoop : ∀ (v : User) (d : PyDate), v.last_submission_reset = some d →
      (today.year, today.month) = (d.year, d.month) →
      v.reset_monthly_usage_if_needed today = (v, false) := by
    intro v d hv hsame
    have hfalse : should_reset_monthly_usage today v.last_submission_reset = false := by
      rw [hv]
      simp [should_reset_monthly_usage, hsame]
    simp [User.reset_monthly_usage_if_needed, hfalse]
  have hdo : ∀ (v : User) (d : PyDate), v.last_submission_reset = some d →
      (today.year, today.month) ≠ (d.year, d.month) →
      v.reset_monthly_usage_if_needed today =
        ({ v with monthly_submissions := 0, last_submission_reset := some today }, true) := by
    intro v d hv hdiff
    have htrue : should_reset_monthly_usage today v.last_submission_reset = true := by
      rw [hv]
      simp [should_reset_monthly_usage, hdiff]
    simp [User.reset_monthly_usage_if_needed, htrue]
  constructor
  · intro d hd
    exact ⟨hnoop u d hd, hdo u d hd⟩
  · cases hd : u.last_submission_reset with
    | none =>
      have h1 : u.reset_monthly_usage_if_needed today =
          ({ u with monthly_submissions := 0, last_submission_reset := some today }, true) := by
        simp [User.reset_monthly_usage_if_needed, should_reset_monthly_usage, hd]
      rw [h1]
      exact hnoop _ today rfl rfl
    | some d =>
      by_cases hsame : (today.year, today.month) = (d.year, d.month)
      · rw [hnoop u d hd hsame]
        exact hnoop u d hd hsame
      · rw [hdo u d hd hsame]
        exact hnoop _ today rfl rfl

/-- C3 witness: a user last reset in September 2025 checked on
2025-09-20 is untouched (false); a user last reset in August 2025
checked the same day is zeroed, stamped 2025-09-20, and told true; a
second check right after is a no-op. -/
theorem c3_monthly_reset_idempotent_witness :
    User.reset_monthly_usage_if_needed ⟨2025, 9, 20⟩
        ⟨.free, true, 4, 9, 0, some ⟨2025, 9, 1⟩⟩ =
      (⟨.free, true, 4, 9, 0, some ⟨2025, 9, 1⟩⟩, false) ∧
    User.reset_monthly_usage_if_needed ⟨2025, 9, 20⟩
        ⟨.free, true, 4, 9, 0, some ⟨2025, 8, 14⟩⟩ =
      (⟨.free, true, 0, 9, 0, some ⟨2025, 9, 20⟩⟩, true) ∧
    User.reset_monthly_usage_if_needed ⟨2025, 9, 20⟩
        (User.reset_monthly_usage_if_needed ⟨2025, 9, 20⟩
          ⟨.free, true, 4, 9, 0, some ⟨2025, 8, 14⟩⟩).1 =
      ((User.reset_monthly_usage_if_needed ⟨2025, 9, 20⟩
        ⟨.free, true, 4, 9, 0, some ⟨2025, 8, 14⟩⟩).1, false) := by
  refine ⟨?_, ?_, ?_⟩
  · exact ((c3_monthly_reset_idempotent ⟨2025, 9, 20⟩
      ⟨.free, true, 4, 9, 0, some ⟨2025, 9, 1⟩⟩).1 ⟨2025, 9, 1⟩ rfl).1 (by decide)
  · exact ((c3_monthly_reset_idempotent ⟨2025, 9, 20⟩
      ⟨.free, true, 4, 9, 0, some ⟨2025, 8, 14⟩⟩).1 ⟨2025, 8, 14⟩ rfl).2 (by decide)
  · exact (c3_monthly_reset_idempotent ⟨2025, 9, 20⟩
      ⟨.free, true, 4, 9, 0, some ⟨2025, 8, 14⟩⟩).2

/-! ## C10 — a never-reset user always triggers the lazy reset -/

/-- C10: for any user whose stored reset date is absent, the lazy check
decides a reset is needed, so `reset_monthly_usage_if_needed` zeroes
the monthly counter, stamps today, and returns true — whatever today
is (in particular during the registration month). -/
theorem c10_none_reset_date_always_resets (today : PyDate) (u : User)
    (h : u.last_submission_reset = none) :
    should_reset_monthly_usage today u.last_submission_reset = true ∧
    u.reset_monthly_usage_if_needed today =
      ({ u with monthly_submissions := 0, last_submission_reset := some today }, true) := by
  constructor
  · rw [h]; rfl
  · simp [User.reset_monthly_usage_if_needed, should_reset_monthly_usage, h]

/-- C10 witness: a fresh user (no stored reset date) with 3 recorded
monthly submissions is reset on 2025-09-20. -/
theorem c10_none_reset_date_always_resets_witness :
    should_reset_monthly_usage ⟨2025, 9, 20⟩ none = true ∧
    User.reset_monthly_usage_if_needed ⟨2025, 9, 20⟩ ⟨.free, true, 3, 3, 0, none⟩ =
      (⟨.free, true, 0, 3, 0, some ⟨2025, 9, 20⟩⟩, true) :=
  c10_none_reset_date_always_resets ⟨2025, 9, 20⟩ ⟨.free, true, 3, 3, 0, none⟩ rfl

/-! ## C4 — the bonus-grant flag is monotone and granted at most once -/

theorem update_membership_status_snd (now : ℤ) (m : UserChannelMembership) (b : Bool) :
    (m.update_membership_status now b).2 = (!m.is_member && b && !m.bonus_granted) := rfl

theorem update_membership_status_bonus (now : ℤ) (m : UserChannelMembership) (b : Bool) :
    (m.update_membership_status now b).1.bonus_granted =
      (m.bonus_granted || (m.update_membership_status now b).2) := by
  rcases m with ⟨im, bg, lc⟩
  cases im <;> cases bg <;> cases b <;> rfl

theorem update_membership_status_member (now : ℤ) (m : UserChannelMembership) (b : Bool) :
    (m.update_membership_status now b).1.is_member = b := by
  rcases m with ⟨im, bg, lc⟩
  cases im <;> cases bg <;> cases b <;> rfl

theorem run_membership_bonus_eq (l : List (ℤ × Bool)) (m : UserChannelMembership) :
    (run_membership_updates m l).1.bonus_granted =
      (m.bonus_granted || (run_membership_updates m l).2.any id) := by
  induction l generalizing m with
  | nil => simp [run_membership_updates]
  | cons hd tl ih =>
    rcases hd with ⟨now, b⟩
    simp only [run_membership_updates, List.any_cons, id_eq]
    rw [ih, update_membership_status_bonus]
    cases m.bonus_granted <;> cases (m.update_membership_status now b).2 <;> simp

theorem run_membership_grants_le (l : List (ℤ × Bool)) (m : UserChannelMembership) :
    (run_membership_updates m l).2.count true ≤ (if m.bonus_granted then 0 else 1) := by
  induction l generalizing m with
  | nil => simp [run_membership_updates]
  | cons hd tl ih =>
    rcases hd with ⟨now, b⟩
    have hrec := ih (m.update_membership_status now b).1
    rw [update_membership_status_bonus now m b] at hrec
    have hrun : (run_membership_updates m ((now, b) :: tl)).2 =
        (m.update_membership_status now b).2 ::
          (run_membership_updates (m.update_membership_status now b).1 tl).2 := rfl
    rw [hrun, List.count_cons]
    have hsnd := update_membership_status_snd now m b
    rcases Bool.eq_false_or_eq_true m.bonus_granted with hbg | hbg
    · have h2 : (m.update_membership_status now b).2 = false := by
        rw [hsnd, hbg]
        simp
      rw [h2, hbg] at hrec
      rw [h2, hbg]
      exact hrec
    · rcases Bool.eq_false_or_eq_true (m.update_membership_status now b).2 with h2 | h2
      · rw [h2, hbg] at hrec
        rw [h2, hbg]
        have hc0 : List.count true
            (run_membership_updates (m.update_membership_status now b).1 tl).2 = 0 :=
          Nat.le_zero.mp hrec
        show List.count true
            (run_membership_updates (m.update_membership_status now b).1 tl).2 + 1 ≤ 1
        omega
      · rw [h2, hbg] at hrec
        rw [h2, hbg]
        exact hrec

/-- C4: a single check returns true (grant) exactly when a non-member
becomes a member while the bonus is ungranted; the stored flag after a
check is the old flag OR that grant (so it is never cleared — leaving
keeps it — and it only turns on at such a flip); and over any sequence
of checks the number of grants is at most one from an ungranted start
and zero from a granted start, with the final flag equal to the initial
flag OR "some call granted". -/
theorem c4_bonus_granted_at_most_once :
    (∀ (now : ℤ) (m : UserChannelMembership) (b : Bool),
      (m.update_membership_status now b).2 = (!m.is_member && b && !m.bonus_granted) ∧
      (m.update_membership_status now b).1.bonus_granted =
        (m.bonus_granted || (m.update_membership_status now b).2) ∧
      (m.update_membership_status now b).1.is_member = b) ∧
    (∀ (m : UserChannelMembership) (l : List (ℤ × Bool)),
      (run_membership_updates m l).2.count true ≤ (if m.bonus_granted then 0 else 1) ∧
      (run_membership_updates m l).1.bonus_granted =
        (m.bonus_granted || (run_membership_updates m l).2.any id)) :=
  ⟨fun now m b =>
    ⟨update_membership_status_snd now m b, update_membership_status_bonus now m b,
      update_membership_status_member now m b⟩,
   fun m l => ⟨run_membership_grants_le l m, run_membership_bonus_eq l m⟩⟩

/-! ## C5 — bonus requests are clamped at the configured cap -/

/-- C5: for every configuration, user, and non-negative amount,
`add_bonus_requests` leaves `bonus_requests` at most the configured
maximum and returns exactly the difference between the new stored total
and the previous one; under the default configuration (cap 20), adding
50 to a user holding 15 bonus requests stores 20 and returns 5. -/
theorem c5_add_bonus_requests_clamped (cfg : BotConfig) (u : User) (amount : ℤ)
    (h : 0 ≤ amount) :
    ((u.add_bonus_requests cfg amount).1.bonus_requests ≤ cfg.MAX_BONUS_REQUESTS ∧
      (u.add_bonus_requests cfg amount).2 =
        (u.add_bonus_requests cfg amount).1.bonus_requests - u.bonus_requests) ∧
    (User.add_bonus_requests defaultConfig ⟨.free, true, 2, 7, 15, none⟩ 50).1.bonus_requests
        = 20 ∧
    (User.add_bonus_requests defaultConfig ⟨.free, true, 2, 7, 15, none⟩ 50).2 = 5 := by
  refine ⟨⟨?_, rfl⟩, by decide, by decide⟩
  simp [User.add_bonus_requests]

/-- C5 witness: the clamp and returned difference at the concrete
default-configuration instance (bonus 15, amount 50, cap 20). -/
theorem c5_add_bonus_requests_clamped_witness :
    (User.add_bonus_requests defaultConfig ⟨.free, true, 2, 7, 15, none⟩ 50).1.bonus_requests
        ≤ defaultConfig.MAX_BONUS_REQUESTS ∧
    (User.add_bonus_requests defaultConfig ⟨.free, true, 2, 7, 15, none⟩ 50).2 =
      (User.add_bonus_requests defaultConfig
        ⟨.free, true, 2, 7, 15, none⟩ 50).1.bonus_requests - 15 :=
  (c5_add_bonus_requests_clamped defaultConfig ⟨.free, true, 2, 7, 15, none⟩ 50
    (by decide)).1

/-! ## C9 — the submission status enumeration -/

/-- C9 counterexample: the `SubmissionStatus` enum of
`src/shared/constants.py` has exactly the three values `pending`,
`completed`, `failed`; neither `processing` nor `cancelled` is among
its values, so a submission's status (typed by this enum) cannot hold
them — contradicting the claim that the lifecycle-status enumerated
type comprises five values. -/
theorem c9_counterexample_status_enum_has_three_values :
    allSubmissionStatuses.map SubmissionStatus.value = ["pending", "completed", "failed"] ∧
    allSubmissionStatuses.all (fun s => s.value ≠ "processing") = true ∧
    allSubmissionStatuses.all (fun s => s.value ≠ "cancelled") = true := by
  refine ⟨rfl, by decide, by decide⟩

/-- C9 (amended): the ORM-level lifecycle-status enumeration comprises
exactly the three values `pending`, `completed`, `failed`; the
migration utility widens only the stored database column's enumeration
to the five values `pending`, `processing`, `completed`, `failed`,
`cancelled`, so `processing`/`cancelled` exist in the database column's
value set but not in the Python enum. -/
theorem c9_status_enum_amended :
    (∀ s : SubmissionStatus, s ∈ allSubmissionStatuses) ∧
    allSubmissionStatuses.map SubmissionStatus.value = ["pending", "completed", "failed"] ∧
    migrationStatusEnumValues =
      ["pending", "processing", "completed", "failed", "cancelled"] ∧
    "processing" ∈ migrationStatusEnumValues ∧
    "cancelled" ∈ migrationStatusEnumValues ∧
    (∀ s : SubmissionStatus, s.value ≠ "processing" ∧ s.value ≠ "cancelled") := by
  refine ⟨fun s => ?_, rfl, rfl, by decide, by decide, fun s => ?_⟩
  · cases s <;> simp [allSubmissionStatuses]
  · cases s <;> simp [SubmissionStatus.value]

/-! ## C2 — overall score from the four component scores -/

theorem average_score_of_positive (s : Submission) (a b c d : ℚ)
    (ha : 0 < a) (hb : 0 < b) (hc : 0 < c) (hd : 0 < d) :
    Submission.average_score
        { s with
          task_achievement_score := some a
          coherence_cohesion_score := some b
          lexical_resource_score := some c
          grammatical_accuracy_score := some d } =
      (a + b + c + d) / 4 := by
  unfold Submission.average_score
  simp only [Option.getD_some]
  rw [List.filter_cons_of_pos (by simpa using ha), List.filter_cons_of_pos (by simpa using hb),
    List.filter_cons_of_pos (by simpa using hc), List.filter_cons_of_pos (by simpa using hd),
    List.filter_nil]
  simp [List.sum_cons]
  ring

theorem set_scores_overall (s : Submission) (a b c d : ℚ) :
    (s.set_scores a b c d).overall_score =
      some ((pythonRound
        ((Submission.average_score
          { s with
            task_achievement_score := some (roundTo1 a)
            coherence_cohesion_score := some (roundTo1 b)
            lexical_resource_score := some (roundTo1 c)
            grammatical_accuracy_score := some (roundTo1 d) }) * 2) : ℚ) / 2) := rfl

/-- C2 counterexample: `set_scores(0.0, 8.0, 8.0, 8.0)` (components all
inside the claim's range `[0.0, 9.0]`) stores `overall_score = 8.0`,
because `average_score` drops non-positive components, while the
arithmetic mean of the four components is `6.0` — itself already a
multiple of 0.5 — so the stored overall is not the mean rounded to the
nearest 0.5. -/
theorem c2_counterexample_zero_component :
    (blankSubmission.set_scores 0 8 8 8).overall_score = some 8 ∧
    ((pythonRound ((((0 : ℚ) + 8 + 8 + 8) / 4) * 2) : ℚ) / 2) = 6 ∧
    ((8 : ℚ) ≠ 6) := by
  refine ⟨?_, ?_, by norm_num⟩
  · have hz : roundTo1 (0 : ℚ) = 0 := by
      have := roundTo1_tenth 0
      simpa using this
    have h8 : roundTo1 (8 : ℚ) = 8 := by
      have := roundTo1_tenth 80
      norm_num at this
      simpa using this
    rw [set_scores_overall, hz, h8]
    have havg : Submission.average_score
        { blankSubmission with
          task_achievement_score := some 0
          coherence_cohesion_score := some 8
          lexical_resource_score := some 8
          grammatical_accuracy_score := some 8 } = 8 := by
      unfold Submission.average_score
      simp only [Option.getD_some]
      rw [List.filter_cons_of_neg (by norm_num), List.filter_cons_of_pos (by norm_num),
        List.filter_cons_of_pos (by norm_num), List.filter_cons_of_pos (by norm_num),
        List.filter_nil]
      norm_num
    rw [havg]
    have h16 : pythonRound ((8 : ℚ) * 2) = 16 := by
      have := pythonRound_intCast 16
      norm_num at this ⊢
      exact this
    rw [h16]
    norm_num
  · have h12 : pythonRound ((((0 : ℚ) + 8 + 8 + 8) / 4) * 2) = 12 := by
      have := pythonRound_intCast 12
      norm_num at this ⊢
      simpa using this
    rw [h12]
    norm_num

/-- C2 (amended): for component scores that are positive exact tenths
in `(0, 9]` — the claim's `[0.0, 9.0]` range minus the zero scores that
`average_score` deliberately drops — `set_scores` stores as
`overall_score` exactly `round(mean*2)/2` (mean of the four, half to
even), which is a multiple of 0.5 within 1/4 of the mean, i.e. a
nearest multiple of 0.5; in particular `set_scores(7.0, 6.5, 8.0, 6.5)`
yields `7.0` (mean `7.0`) and `set_scores(7.0, 7.0, 7.0, 6.8)` yields
`7.0` (mean `6.95`). -/
theorem c2_set_scores_amended (s : Submission) (n1 n2 n3 n4 : ℤ)
    (h1 : 0 < n1) (h2 : 0 < n2) (h3 : 0 < n3) (h4 : 0 < n4)
    (hb1 : n1 ≤ 90) (hb2 : n2 ≤ 90) (hb3 : n3 ≤ 90) (hb4 : n4 ≤ 90) :
    ((s.set_scores ((n1 : ℚ) / 10) ((n2 : ℚ) / 10) ((n3 : ℚ) / 10)
        ((n4 : ℚ) / 10)).overall_score =
      some ((pythonRound
        ((((n1 : ℚ) / 10 + (n2 : ℚ) / 10 + (n3 : ℚ) / 10 + (n4 : ℚ) / 10) / 4) * 2) : ℚ) / 2) ∧
      (∃ k : ℤ, ((pythonRound
        ((((n1 : ℚ) / 10 + (n2 : ℚ) / 10 + (n3 : ℚ) / 10 + (n4 : ℚ) / 10) / 4) * 2) : ℚ) / 2)
          = (k : ℚ) / 2) ∧
      |((pythonRound
        ((((n1 : ℚ) / 10 + (n2 : ℚ) / 10 + (n3 : ℚ) / 10 + (n4 : ℚ) / 10) / 4) * 2) : ℚ) / 2)
          - ((n1 : ℚ) / 10 + (n2 : ℚ) / 10 + (n3 : ℚ) / 10 + (n4 : ℚ) / 10) / 4| ≤ 1/4) ∧
    (blankSubmission.set_scores 7 (13/2) 8 (13/2)).overall_score = some 7 ∧
    (blankSubmission.set_scores 7 7 7 (34/5)).overall_score = some 7 := by
  have habs : ∀ y : ℚ, |((pythonRound (y * 2) : ℚ) / 2) - y| ≤ 1/4 := by
    intro y
    have h := abs_pythonRound_sub (y * 2)
    have heq : ((pythonRound (y * 2) : ℚ) / 2) - y = ((pythonRound (y * 2) : ℚ) - y * 2) / 2 := by
      ring
    rw [heq, abs_div]
    rw [abs_of_pos (by norm_num : (0:ℚ) < 2)]
    linarith
  refine ⟨⟨?_, ⟨pythonRound _, rfl⟩, habs _⟩, ?_, ?_⟩
  · have hpos : ∀ n : ℤ, 0 < n → (0 : ℚ) < (n : ℚ) / 10 := by
      intro n hn
      positivity
    rw [set_scores_overall, roundTo1_tenth, roundTo1_tenth, roundTo1_tenth, roundTo1_tenth,
      average_score_of_positive s _ _ _ _ (hpos n1 h1) (hpos n2 h2) (hpos n3 h3) (hpos n4 h4)]
  · have h7 : roundTo1 (7 : ℚ) = 7 := by
      have := roundTo1_tenth 70
      norm_num at this
      simpa using this
    have h65 : roundTo1 ((13 : ℚ) / 2) = 13/2 := by
      have := roundTo1_tenth 65
      norm_num at this
      simpa using this
    have h8 : roundTo1 (8 : ℚ) = 8 := by
      have := roundTo1_tenth 80
      norm_num at this
      simpa using this
    rw [set_scores_overall, h7, h65, h8,
      average_score_of_positive _ _ _ _ _ (by norm_num) (by norm_num) (by norm_num)
        (by norm_num)]
    have hmean : ((7 : ℚ) + 13/2 + 8 + 13/2) / 4 = 7 := by norm_num
    rw [hmean]
    have h14 : pythonRound ((7 : ℚ) * 2) = 14 := by
      have := pythonRound_intCast 14
      norm_num at this ⊢
      simpa using this
    rw [h14]
    norm_num
  · have h7 : roundTo1 (7 : ℚ) = 7 := by
      have := roundTo1_tenth 70
      norm_num at this
      simpa using this
    have h68 : roundTo1 ((34 : ℚ) / 5) = 34/5 := by
      have := roundTo1_tenth 68
      norm_num at this
      simpa using this
    rw [set_scores_overall, h7, h68,
      average_score_of_positive _ _ _ _ _ (by norm_num) (by norm_num) (by norm_num)
        (by norm_num)]
    have hmean : ((7 : ℚ) + 7 + 7 + 34/5) / 4 = 139/20 := by norm_num
    rw [hmean]
    have hfloor : ⌊(139 : ℚ) / 20 * 2⌋ = 13 := by
      norm_num [Int.floor_eq_iff]
    have h139 : pythonRound ((139 : ℚ) / 20 * 2) = 14 := by
      unfold pythonRound
      rw [hfloor]
      norm_num
    rw [h139]
    norm_num

/-- C2 witness: the amended theorem applied at `set_scores(7.0, 6.5,
8.0, 6.5)` (tenths 70, 65, 80, 65, all in `(0, 90]`). -/
theorem c2_set_scores_amended_witness :
    ((blankSubmission.set_scores (((70 : ℤ) : ℚ) / 10) (((65 : ℤ) : ℚ) / 10)
        (((80 : ℤ) : ℚ) / 10) (((65 : ℤ) : ℚ) / 10)).overall_score =
      some ((pythonRound
        (((((70 : ℤ) : ℚ) / 10 + ((65 : ℤ) : ℚ) / 10 + ((80 : ℤ) : ℚ) / 10 +
          ((65 : ℤ) : ℚ) / 10) / 4) * 2) : ℚ) / 2)) ∧
    (blankSubmission.set_scores 7 (13/2) 8 (13/2)).overall_score = some 7 ∧
    (blankSubmission.set_scores 7 7 7 (34/5)).overall_score = some 7 := by
  have h := c2_set_scores_amended blankSubmission 70 65 80 65 (by decide) (by decide)
    (by decide) (by decide) (by decide) (by decide) (by decide) (by decide)
  exact ⟨h.1.1, h.2.1, h.2.2⟩

/-! ## C6 — acceptability of the enhanced word count -/

/-- C6: the enhanced validator judges a text acceptable exactly when
the advanced (authoritative) total lies in `[min_words, max_words+50]`
(for any requested bounds with a positive minimum — the task defaults
are 150/200 for task1 and 250/350 otherwise); with the task2 defaults,
a text of advanced count 249 is unacceptable and its suggestions name
the 1-word shortfall, while a text of advanced count 250 is
acceptable. -/
theorem c6_validate_word_count_acceptable (text : List Char) (task_type : String)
    (min_words? max_words? : Option ℕ)
    (hmin : 0 < min_words?.getD (if task_type = "task1" then 150 else 250)) :
    ((validate_word_count text task_type min_words? max_words?).is_acceptable = true ↔
      (min_words?.getD (if task_type = "task1" then 150 else 250) ≤
          (count_words_advanced text).1 ∧
        (count_words_advanced text).1 ≤
          max_words?.getD (if task_type = "task1" then 200 else 350) + 50)) ∧
    (validate_word_count text249 "task2" none none).is_acceptable = false ∧
    (count_words_advanced text249).1 = 249 ∧
    ("نیاز به 1 کلمه بیشتر برای رسیدن به حداقل مورد نیاز" ∈
      (validate_word_count text249 "task2" none none).suggestions) ∧
    (validate_word_count text250 "task2" none none).is_acceptable = true ∧
    (count_words_advanced text250).1 = 250 := by
  refine ⟨?_, by decide, by decide, by decide, by decide, by decide⟩
  unfold validate_word_count
  dsimp only
  split
  · next hzero =>
    have hadv : (count_words_advanced text).1 = 0 := by
      have hle : (count_words_advanced text).1 ≤
          max (count_words_simple text) (max (count_words_regex text)
            (count_words_advanced text).1) :=
        le_trans (le_max_right _ _) (le_max_right _ _)
      omega
    simp only [hadv]
    constructor
    · intro hfalse
      exact absurd hfalse (by simp)
    · intro hconj
      omega
  · simp only [Bool.and_eq_true, decide_eq_true_eq]

/-- C6 witness: the acceptability equivalence applied to the concrete
250-word text under the task2 defaults. -/
theorem c6_validate_word_count_acceptable_witness :
    (validate_word_count text250 "task2" none none).is_acceptable = true :=
  (c6_validate_word_count_acceptable text250 "task2" none none (by decide)).1.mpr
    ⟨by decide, by decide⟩

/-! ## C7 — the submission-text validator -/

theorem pyStrip_length_le (l : List Char) : (pyStrip l).length ≤ l.length := by
  unfold pyStrip
  calc ((l.dropWhile pyIsSpace).reverse.dropWhile pyIsSpace).reverse.length
      = ((l.dropWhile pyIsSpace).reverse.dropWhile pyIsSpace).length := List.length_reverse _
    _ ≤ (l.dropWhile pyIsSpace).reverse.length := (List.dropWhile_sublist pyIsSpace).length_le
    _ = (l.dropWhile pyIsSpace).length := List.length_reverse _
    _ ≤ l.length := (List.dropWhile_sublist pyIsSpace).length_le

/-- When validation succeeds, every guard of
`validate_submission_text` was passed. -/
theorem validate_ok_guards (text task_type : String)
    (h : isValidationError (validate_submission_text text task_type) = false) :
    (pyStrip text.data).isEmpty = false ∧
    50 ≤ (pyStrip text.data).length ∧
    (pyStrip text.data).length ≤ 5000 ∧
    (validate_word_count (pyStrip text.data) task_type
      (some ((TASK_REQUIREMENTS task_type).getD ⟨0, 0, "", ""⟩).min_words)
      (some ((TASK_REQUIREMENTS task_type).getD ⟨0, 0, "", ""⟩).max_words)).is_acceptable
        = true ∧
    (check_text_language (pyStrip text.data)).is_english = true ∧
    (check_text_quality (pyStrip text.data)).has_issues = false ∧
    placeholderMatched (pyStrip text.data) = false := by
  unfold validate_submission_text at h
  rcases hreq : TASK_REQUIREMENTS task_type with _ | req
  · rw [hreq] at h
    simp [isValidationError] at h
  · rw [hreq] at h
    dsimp only at h
    split_ifs at h with h1 h2 h3 h4 h5 h6 h7
    any_goals simp [isValidationError] at h
    rw [Bool.not_eq_true] at h1
    rw [Bool.not_eq_true] at h4 h5
    refine ⟨h1, by omega, by omega, ?_, ?_, ?_, ?_⟩
    · simpa using h4
    · simpa using h5
    · exact Bool.not_eq_true _ |>.mp h6
    · exact Bool.not_eq_true _ |>.mp h7

/-- C7 (amended): `validate_submission_text` raises the
text-validation-failed condition (`TextValidationError`, a Persian
message) for: empty or whitespace-only input; any input shorter than 50
characters; any input whose whitespace-trimmed form is longer than 5000
characters (the length guards run after `strip()`, so surrounding
whitespace does not count); any input whose trimmed form the language
check does not classify as English — in particular any input with no
ASCII letters at all, such as all-Persian text; and any input whose
lowercased trimmed form contains a word-boundary-delimited occurrence
of `lorem ipsum` (or `test`, `testing`, `sample`) — the pattern is
`\b(lorem ipsum|...)\b`, so an occurrence embedded in a longer word
does not count. A well-formed 250-word English Task-2 essay with no
placeholder markers validates successfully. -/
theorem c7_validate_submission_text_amended :
    (∀ text task_type : String, (pyStrip text.data).isEmpty = true →
      isValidationError (validate_submission_text text task_type) = true) ∧
    (∀ text task_type : String, text.length < 50 →
      isValidationError (validate_submission_text text task_type) = true) ∧
    (∀ text task_type : String, 5000 < (pyStrip text.data).length →
      isValidationError (validate_submission_text text task_type) = true) ∧
    (∀ text task_type : String, (check_text_language (pyStrip text.data)).is_english = false →
      isValidationError (validate_submission_text text task_type) = true) ∧
    (∀ text : String, (∀ c ∈ text.data, isAsciiLetter c = false) →
      (check_text_language text.data).is_english = false) ∧
    (∀ text task_type : String,
      searchBounded placeholderWords1 (pyLower (pyStrip text.data)) = true →
      isValidationError (validate_submission_text text task_type) = true) ∧
    isValidationError (validate_submission_text essayText "task2") = false := by
  have herr : ∀ text task_type : String,
      isValidationError (validate_submission_text text task_type) = true ∨
      isValidationError (validate_submission_text text task_type) = false := by
    intro text task_type
    exact Bool.eq_false_or_eq_true _
  refine ⟨?_, ?_, ?_, ?_, ?_, ?_, by decide⟩
  · intro text task_type hempty
    rcases herr text task_type with h | h
    · exact h
    · have := (validate_ok_guards text task_type h).1
      rw [hempty] at this
      exact absurd this (by simp)
  · intro text task_type hshort
    rcases herr text task_type with h | h
    · exact h
    · have h50 := (validate_ok_guards text task_type h).2.1
      have hle := pyStrip_length_le text.data
      have : text.length = text.data.length := rfl
      omega
  · intro text task_type hlong
    rcases herr text task_type with h | h
    · exact h
    · have := (validate_ok_guards text task_type h).2.2.1
      omega
  · intro text task_type hlang
    rcases herr text task_type with h | h
    · exact h
    · have := (validate_ok_guards text task_type h).2.2.2.2.1
      rw [hlang] at this
      exact absurd this (by simp)
  · intro text hnoletter
    have hfilter : (text.data.filter isLangAlpha).filter isAsciiLetter = [] := by
      rw [List.filter_eq_nil_iff]
      intro c hc
      have hc' := List.mem_of_mem_filter hc
      simp [hnoletter c hc']
    unfold check_text_language
    dsimp only
    split_ifs with ha hb hc
    · rfl
    · exfalso
      rw [hfilter] at hb
      have htot : 0 < (text.data.filter isLangAlpha).length := by
        rcases hx : text.data.filter isLangAlpha with _ | ⟨c, cs⟩
        · rw [hx] at ha
          simp at ha
        · simp [hx]
      simp only [List.length_nil] at hb
      omega
    · rfl
    · rfl
  · intro text task_type hlorem
    rcases herr text task_type with h | h
    · exact h
    · have hph := (validate_ok_guards text task_type h).2.2.2.2.2.2
      unfold placeholderMatched at hph
      dsimp only at hph
      rw [hlorem] at hph
      simp at hph

/-- C7 counterexample: a valid essay whose raw text contains the
literal substring `lorem ipsum` (inside `blorem ipsumc`, with no word
boundary) and is longer than 5000 characters thanks to trailing
whitespace, yet validates successfully — refuting the unamended "any
string longer than 5000 characters" and "any string containing the
literal substring lorem ipsum" readings. -/
theorem string_length_append (a b : String) : (a ++ b).length = a.length + b.length := by
  rcases a with ⟨la⟩
  rcases b with ⟨lb⟩
  show (la ++ lb).length = la.length + lb.length
  exact List.length_append la lb

theorem c7_counterexample_padded_lorem :
    5000 < loremPaddedInput.length ∧
    containsSubstr loremPaddedInput.data "lorem ipsum".data = true ∧
    isValidationError (validate_submission_text loremPaddedInput "task2") = false := by
  refine ⟨?_, by decide, by decide⟩
  have h1 : loremPaddedInput.length =
      essayText.length + ("People often say blorem ipsumc daily. " : String).length +
        (String.mk (List.replicate 4500 ' ')).length := by
    unfold loremPaddedInput
    rw [string_length_append, string_length_append]
  have h2 : (String.mk (List.replicate 4500 ' ')).length = 4500 :=
    List.length_replicate 4500 ' ' 
  have h3 : essayText.length = 505 := by decide
  have h4 : ("People often say blorem ipsumc daily. " : String).length = 38 := by decide
  omega

/-- C7 witness: the amended theorem applied to concrete inputs — a
whitespace-only string, a 2-character string, and an all-Persian
string (no ASCII letters, hence not classified English). -/
theorem c7_validate_submission_text_amended_witness :
    isValidationError (validate_submission_text "   " "task2") = true ∧
    isValidationError (validate_submission_text "hi" "task2") = true ∧
    isValidationError (validate_submission_text "سلام دنیا این یک متن فارسی است" "task1") = true := by
  obtain ⟨hempty, hshort, _, hlang, _, _, _⟩ := c7_validate_submission_text_amended
  exact ⟨hempty "   " "task2" (by decide), hshort "hi" "task2" (by decide),
    hlang "سلام دنیا این یک متن فارسی است" "task1" (by decide)⟩

/-! ## C8 — parsing the AI evaluation response -/

theorem firstMissingKey_none_all_present (fields : List (String × Json)) :
    ∀ ks : List String, firstMissingKey fields ks = none →
      ∀ k ∈ ks, (jsonLookup k fields).isSome = true := by
  intro ks
  induction ks with
  | nil => intro _ k hk; exact absurd hk (List.not_mem_nil k)
  | cons k0 rest ih =>
    intro hnone k hk
    unfold firstMissingKey at hnone
    rcases hl : (jsonLookup k0 fields).isNone with _ | _
    · rw [hl] at hnone
      simp only [Bool.false_eq_true, if_false] at hnone
      rcases List.mem_cons.mp hk with rfl | hmem
      · rcases ho : jsonLookup k fields with _ | v
        · simp at hl
          rw [ho] at hl
          exact hl
        · rfl
      · exact ih hnone k hmem
    · rw [hl] at hnone
      simp at hnone

/-- C8: for the response parser (with `json.loads` abstracted as the
`loads` argument): (a) a parsed JSON object holding numeric values for
all four required score fields and no `overall_score` yields a success
result whose `overall_score` is the mean of the four rounded to one
decimal (within 1/20 of the exact mean); (b) when exactly one required
score field is missing the parser fails and its error message names
that field; (c) when the content does not parse as JSON the parser
fails and retains the stripped raw content; (d) a success result is
produced only when the content is non-empty, parses as a JSON object,
and all four required score fields are present. -/
theorem c8_parse_evaluation_response :
    (∀ (loads : String → Except String Json) (c : String) (fields : List (String × Json))
        (q1 q2 q3 q4 : ℚ),
      c ≠ "" →
      loads (pyStripString c) = .ok (.obj fields) →
      jsonLookup "task_achievement_score" fields = some (.num q1) →
      jsonLookup "coherence_cohesion_score" fields = some (.num q2) →
      jsonLookup "lexical_resource_score" fields = some (.num q3) →
      jsonLookup "grammatical_accuracy_score" fields = some (.num q4) →
      jsonLookup "overall_score" fields = none →
      (parse_evaluation_response (some c) loads).overall_score =
          some (roundTo1 ((q1 + q2 + q3 + q4) / 4)) ∧
        |roundTo1 ((q1 + q2 + q3 + q4) / 4) - (q1 + q2 + q3 + q4) / 4| ≤ 1/20 ∧
        (parse_evaluation_response (some c) loads).success = true) ∧
    (∀ (loads : String → Except String Json) (c : String) (fields : List (String × Json))
        (k : String),
      c ≠ "" →
      loads (pyStripString c) = .ok (.obj fields) →
      k ∈ requiredScoreKeys →
      jsonLookup k fields = none →
      (∀ k2 ∈ requiredScoreKeys, k2 ≠ k → (jsonLookup k2 fields).isSome = true) →
      (parse_evaluation_response (some c) loads).success = false ∧
        (parse_evaluation_response (some c) loads).error_message =
          some ("Missing required score: " ++ k)) ∧
    (∀ (loads : String → Except String Json) (c e : String),
      c ≠ "" →
      loads (pyStripString c) = .error e →
      (parse_evaluation_response (some c) loads).success = false ∧
        (parse_evaluation_response (some c) loads).raw_response = some (pyStripString c)) ∧
    (∀ (loads : String → Except String Json) (c : String),
      (parse_evaluation_response (some c) loads).success = true →
      c ≠ "" ∧ ∃ fields : List (String × Json),
        loads (pyStripString c) = .ok (.obj fields) ∧
          requiredScoreKeys.all (fun k => (jsonLookup k fields).isSome) = true) := by
  refine ⟨?_, ?_, ?_, ?_⟩
  · intro loads c fields q1 q2 q3 q4 hc hload h1 h2 h3 h4 hover
    have habs : |roundTo1 ((q1 + q2 + q3 + q4) / 4) - (q1 + q2 + q3 + q4) / 4| ≤ 1/20 := by
      set m : ℚ := (q1 + q2 + q3 + q4) / 4 with hm
      have h := abs_pythonRound_sub (m * 10)
      have heq : roundTo1 m - m = ((pythonRound (m * 10) : ℚ) - m * 10) / 10 := by
        unfold roundTo1
        ring
      rw [heq, abs_div, abs_of_pos (by norm_num : (0:ℚ) < 10)]
      linarith
    have hmiss : firstMissingKey fields requiredScoreKeys = none := by
      simp [requiredScoreKeys, firstMissingKey, h1, h2, h3, h4]
    have hres : parse_evaluation_response (some c) loads =
        { success := true, task_achievement_score := some q1,
          coherence_cohesion_score := some q2, lexical_resource_score := some q3,
          grammatical_accuracy_score := some q4,
          overall_score := some (roundTo1 ((q1 + q2 + q3 + q4) / 4)),
          feedback_text := some ((jsonLookup "feedback_text" fields).getD (.str "")),
          strengths := some ((jsonLookup "strengths" fields).getD (.arr [])),
          weaknesses := some ((jsonLookup "weaknesses" fields).getD (.arr [])),
          improvement_suggestions :=
            some ((jsonLookup "improvement_suggestions" fields).getD (.arr [])),
          error_message := none, raw_response := some (pyStripString c) } := by
      simp only [parse_evaluation_response, if_neg hc, hload, hmiss, h1, h2, h3, h4, hover,
        Option.getD_some, pyNumeric]
    rw [hres]
    exact ⟨rfl, habs, rfl⟩
  · intro loads c fields k hc hload hkmem hknone hothers
    have hpresent : ∀ k2 : String, k2 ∈ requiredScoreKeys → k2 ≠ k →
        ∃ v, jsonLookup k2 fields = some v := by
      intro k2 hk2 hne
      exact Option.isSome_iff_exists.mp (hothers k2 hk2 hne)
    have hfirst : firstMissingKey fields requiredScoreKeys = some k := by
      simp only [requiredScoreKeys, List.mem_cons, List.not_mem_nil, or_false] at hkmem
      rcases hkmem with rfl | rfl | rfl | rfl
      · simp [requiredScoreKeys, firstMissingKey, hknone]
      · obtain ⟨v1, hv1⟩ := hpresent "task_achievement_score" (by simp [requiredScoreKeys])
          (by decide)
        simp [requiredScoreKeys, firstMissingKey, hv1, hknone]
      · obtain ⟨v1, hv1⟩ := hpresent "task_achievement_score" (by simp [requiredScoreKeys])
          (by decide)
        obtain ⟨v2, hv2⟩ := hpresent "coherence_cohesion_score" (by simp [requiredScoreKeys])
          (by decide)
        simp [requiredScoreKeys, firstMissingKey, hv1, hv2, hknone]
      · obtain ⟨v1, hv1⟩ := hpresent "task_achievement_score" (by simp [requiredScoreKeys])
          (by decide)
        obtain ⟨v2, hv2⟩ := hpresent "coherence_cohesion_score" (by simp [requiredScoreKeys])
          (by decide)
        obtain ⟨v3, hv3⟩ := hpresent "lexical_resource_score" (by simp [requiredScoreKeys])
          (by decide)
        simp [requiredScoreKeys, firstMissingKey, hv1, hv2, hv3, hknone]
    have heq : parse_evaluation_response (some c) loads =
        failureResult ("Missing required score: " ++ k) (some (pyStripString c)) := by
      simp only [parse_evaluation_response, if_neg hc, hload, hfirst]
    rw [heq]
    exact ⟨rfl, rfl⟩
  · intro loads c e hc hload
    have heq : parse_evaluation_response (some c) loads =
        failureResult ("Invalid JSON response: " ++ e) (some (pyStripString c)) := by
      simp only [parse_evaluation_response, if_neg hc, hload]
    rw [heq]
    exact ⟨rfl, rfl⟩
  · intro loads c hsucc
    by_cases hc : c = ""
    · rw [hc] at hsucc
      simp [parse_evaluation_response, failureResult] at hsucc
    · refine ⟨hc, ?_⟩
      unfold parse_evaluation_response at hsucc
      dsimp only at hsucc
      rw [if_neg hc] at hsucc
      rcases hload : loads (pyStripString c) with e | j
      · rw [hload] at hsucc
        simp [failureResult] at hsucc
      · rw [hload] at hsucc
        cases j with
        | obj fields =>
          refine ⟨fields, rfl, ?_⟩
          dsimp only at hsucc
          rcases hfirst : firstMissingKey fields requiredScoreKeys with _ | k
          · rw [List.all_eq_true]
            intro k hk
            exact firstMissingKey_none_all_present fields requiredScoreKeys hfirst k hk
          · rw [hfirst] at hsucc
            simp [failureResult] at hsucc
        | num q => simp [failureResult] at hsucc
        | str v => simp [failureResult] at hsucc
        | bool b => simp [failureResult] at hsucc
        | null => simp [failureResult] at hsucc
        | arr xs => simp [failureResult] at hsucc

/-- C8 witness: the parser theorem's computed-overall clause applied to
a concrete response carrying the four numeric scores 7, 6.5, 8, 6.5
and no overall score. -/
theorem c8_parse_evaluation_response_witness :
    (parse_evaluation_response (some "x") sampleLoads).overall_score =
      some (roundTo1 ((7 + 13/2 + 8 + 13/2) / 4)) ∧
    (parse_evaluation_response (some "x") sampleLoads).success = true := by
  have h := c8_parse_evaluation_response.1 sampleLoads "x" sampleScoreFields 7 (13/2) 8 (13/2)
    (by decide) rfl rfl rfl rfl rfl rfl
  exact ⟨h.1, h.2.2⟩

end IeltsWriting
